import Mathlib

/-!
Verification of the sklad tweet ingestion and presentation pipeline.

Shallow embedding of `src/sklad/twitter.py`, `src/sklad/bot.py` and the record
shapes of `src/sklad/db.py`.  Network and chat-platform collaborators are
parameters (a provider oracle `Nat → Option TwiTweet`, a byte-size probe
`String → Nat`); the relational store is a `List Tweet` threaded explicitly.
-/

namespace Sklad

/-- The `TwitterMedia` TypedDict of twitter.py: a canonical media descriptor.
`telegram_data` is a `dict` in Python and only its truthiness (cached
provider-native upload reference present or not) is ever branched on, so it is
modelled as a `Bool`. -/
structure TwitterMedia where
  type : String
  url : String
  width : Nat
  height : Nat
  thumbnail_url : String
  telegram_data : Bool
  size : Nat
  duration : Option Nat
deriving DecidableEq, Repr

/-- A stored `Tweet` row (db.py `Tweet` model as used by twitter.py/bot.py):
auto-increment primary key `id`, unique provider id `tweet_id`, text, creation
time (modelled as an integer timestamp), author fields, normalized
attachments, processed flag. -/
structure Tweet where
  id : Nat
  tweet_id : Nat
  text : String
  created_at : Int
  user_id : Nat
  user_name : String
  user_screen_name : String
  attachments : List TwitterMedia
  processed : Bool
deriving DecidableEq, Repr

/-- A raw provider attachment record (the dict shapes read by
`_get_relevant_media_info`): type tag, `media_url_https`, the `sizes.medium`
dimensions, the `video_info.variants` URL list, `video_info.duration_millis`,
and the `original_info` dimensions. -/
structure RawAttachment where
  type : String
  media_url_https : String
  sizesMediumW : Nat
  sizesMediumH : Nat
  variantUrls : List String
  duration_millis : Nat
  originalW : Nat
  originalH : Nat
deriving DecidableEq, Repr

/-- A raw provider tweet (twikit `Tweet`) as consumed by `_process_tweet`. -/
structure TwiTweet where
  id : Nat
  text : String
  created_at : Int
  userId : Nat
  userName : String
  userScreenName : String
  media : List RawAttachment
deriving DecidableEq, Repr

/-- A `User` row as read by bot.py: optional provider credentials and cookie
blob.  Python truthiness of these `CharField`s treats both `None` and the
empty string as absent. -/
structure User where
  username : String
  telegram_id : Nat
  twitter_username : Option String
  twitter_email : Option String
  twitter_password : Option String
  twitter_cookies : Option String
deriving DecidableEq, Repr

/-- Python falsiness of an optional string field (`not user.twitter_username`):
`None` and `""` are falsy. -/
def falsy : Option String → Bool
  | none => true
  | some s => s.isEmpty

/-- The in-process `Twitter` session handle state that the embedded functions
touch: login flag and the client's current cookie jar. -/
structure TwitterS where
  logged_in : Bool
  cookies : Option String
deriving DecidableEq, Repr

/-- `Twitter.login_as_user` (twitter.py): with cookies present, set them on the
client and mark logged in; otherwise log in with the credential triple and
persist the client's resulting cookie jar back onto the `User` row.
`clientCookies` stands for the cookies the external client produces on a
credential login. -/
def login_as_user (clientCookies : String) (u : User) (t : TwitterS) : TwitterS × User :=
  if !falsy u.twitter_cookies then
    ({ t with cookies := u.twitter_cookies, logged_in := true }, u)
  else
    ({ t with cookies := some clientCookies, logged_in := true },
     { u with twitter_cookies := some clientCookies })

/-- `Bot._get_logged_in_twitter` (bot.py lines 43-53): raises
`ValueError("User has no twitter credentials")` when
`(not username or not email or not password) or (not cookies)`; otherwise logs
the cached handle in if it is not yet logged in. -/
def get_logged_in_twitter (clientCookies : String) (u : User) (t : TwitterS) :
    Except String (TwitterS × User) :=
  if (falsy u.twitter_username || falsy u.twitter_email || falsy u.twitter_password)
      || falsy u.twitter_cookies then
    Except.error "User has no twitter credentials"
  else if !t.logged_in then
    Except.ok (login_as_user clientCookies u t)
  else
    Except.ok (t, u)

/-- Modelled from the spec: "`ensure_logged_in(user)` fails with
`MissingCredentialsError` if neither full credential triple nor cookies
present".  The error condition the spec describes, for comparison with the
code's condition in `get_logged_in_twitter`. -/
def missing_credentials_spec (u : User) : Bool :=
  (falsy u.twitter_username || falsy u.twitter_email || falsy u.twitter_password)
    && falsy u.twitter_cookies

/-- Split a character list at every occurrence of `sep` (kernel-reducible
analogue of `String.splitOn` for a one-character separator). -/
def splitOnCharAux (sep : Char) : List Char → List Char → List (List Char)
  | [], acc => [acc.reverse]
  | c :: rest, acc =>
    if c = sep then acc.reverse :: splitOnCharAux sep rest []
    else splitOnCharAux sep rest (c :: acc)

/-- Split a string at every occurrence of a one-character separator. -/
def splitChar (sep : Char) (s : String) : List String :=
  (splitOnCharAux sep s.toList []).map List.asString

/-- Join string pieces with a separator (kernel-reducible analogue of
`String.intercalate`). -/
def joinSep (sep : String) : List String → String
  | [] => ""
  | [x] => x
  | x :: xs => x ++ sep ++ joinSep sep xs

/-- Numeric value of a decimal digit string, as Python `int(s)` on the
all-digit strings this pipeline extracts. -/
def digitsToNat (l : List Char) : Nat :=
  l.foldl (fun n c => n * 10 + (c.toNat - 48)) 0

/-- Python `str.strip()`: drop leading and trailing whitespace. -/
def pyStrip (s : String) : String :=
  (((s.toList.dropWhile Char.isWhitespace).reverse.dropWhile Char.isWhitespace).reverse).asString

/-- Last path segment of a URL string (yarl `URL.name`): the part after the
final `/`, with any query string stripped. -/
def urlName (u : String) : String :=
  (splitChar '/' ((splitChar '?' u).headD u)).getLastD ""

/-- `Path(name).stem`: the file name without its final extension. -/
def pathStem (n : String) : String :=
  let parts := splitChar '.' n
  if parts.length ≤ 1 then n else joinSep "." parts.dropLast

/-- yarl `URL.with_query`: a NEW url string with the query replaced. -/
def url_with_query (u : String) (q : List (String × String)) : String :=
  ((splitChar '?' u).headD u) ++ "?"
    ++ joinSep "&" (q.map fun p => p.1 ++ "=" ++ p.2)

/-- yarl `URL.with_name`: a NEW url string with the last path segment
replaced (and the query dropped). -/
def url_with_name (u : String) (n : String) : String :=
  let base := (splitChar '?' u).headD u
  joinSep "/" ((splitChar '/' base).dropLast ++ [n])

/-- `Twitter._custom_img_url` (twitter.py lines 54-58).  yarl URLs are
immutable: `url.with_query(...)` and `url.with_name(...)` each RETURN a new
URL, and the Python code discards both return values, so the function returns
the parsed input URL unchanged.  The discarded computations are kept as dead
`let` bindings to mirror the source lines. -/
def custom_img_url (url : String) (size : String) (format : String) : String :=
  let _ := url_with_query url [("name", size), ("format", format)]
  let _ := url_with_name url (pathStem (urlName url) ++ "." ++ format)
  url

/-- Modelled from the spec: "rewrite the URL to force jpg format" — the
rewrite `_custom_img_url` was evidently meant to perform (query set to the
size/format pair and the file name's extension forced to the format). -/
def custom_img_url_intended (url : String) (size : String) (format : String) : String :=
  url_with_query (url_with_name url (pathStem (urlName url) ++ "." ++ format))
    [("name", size), ("format", format)]

/-- `Twitter._get_relevant_media_info` (twitter.py lines 68-119): dispatch on
the provider type tag.  `sizeOf` stands for the `Content-Length` HEAD probe
`_get_media_size`.  In the video branch Python raises on malformed variant
lists or URL paths; the model totalises those partial reads with defaults
(no claim exercises malformed video data). -/
def getRelevantMediaInfo (sizeOf : String → Nat) (a : RawAttachment) : Option TwitterMedia :=
  if a.type == "photo" then
    let url := custom_img_url a.media_url_https "medium" "jpg"
    some { type := "photo", url := url, width := a.sizesMediumW, height := a.sizesMediumH,
           thumbnail_url := url, telegram_data := false, size := sizeOf url, duration := none }
  else if a.type == "video" then
    let url := a.variantUrls.getLastD ""
    let segs := splitChar '/' url
    let dims := splitChar 'x' (segs.getD (segs.length - 2) "")
    some { type := "video", url := url,
           width := digitsToNat (dims.getD 0 "").toList,
           height := digitsToNat (dims.getD 1 "").toList,
           thumbnail_url := a.media_url_https, telegram_data := false,
           size := sizeOf url, duration := some (a.duration_millis / 1000) }
  else if a.type == "animated_gif" then
    let url := a.variantUrls.getLastD ""
    some { type := "gif", url := url, width := a.originalW, height := a.originalH,
           thumbnail_url := "", telegram_data := false, size := sizeOf url, duration := none }
  else
    none

/-- `Twitter.get_relevant_media_info` (batch form): normalize each raw
attachment concurrently and filter out the `None`s. -/
def get_relevant_media_info (sizeOf : String → Nat) (data : List RawAttachment) :
    List TwitterMedia :=
  data.filterMap (getRelevantMediaInfo sizeOf)

/-- `Tweet.get_or_none(Tweet.tweet_id == tid)`: first stored row with the
given provider id. -/
def getOrNoneByTweetId (db : List Tweet) (tid : Nat) : Option Tweet :=
  db.find? (fun t => t.tweet_id == tid)

/-- Auto-increment primary key for a fresh row. -/
def nextId (db : List Tweet) : Nat :=
  db.foldl (fun m t => max m t.id) 0 + 1

/-- `Twitter._process_tweet` (twitter.py lines 146-159): look the provider id
up again; if absent, construct a new row from the raw tweet (normalizing its
media batch) and insert it. -/
def processTweet (sizeOf : String → Nat) (db : List Tweet) (tw : TwiTweet) :
    Tweet × List Tweet :=
  match getOrNoneByTweetId db tw.id with
  | some t => (t, db)
  | none =>
    let t : Tweet :=
      { id := nextId db, tweet_id := tw.id, text := tw.text, created_at := tw.created_at,
        user_id := tw.userId, user_name := tw.userName,
        user_screen_name := tw.userScreenName,
        attachments := get_relevant_media_info sizeOf tw.media,
        processed := false }
    (t, db ++ [t])

/-- Outcome of one `get_tweet_by_id` call: the returned row (or `None`), the
store afterwards, how many storage lookups (`get_or_none` calls) ran, and
whether the provider was contacted. -/
structure ResolveResult where
  result : Option Tweet
  db : List Tweet
  storageLookups : Nat
  providerFetched : Bool
deriving DecidableEq, Repr

/-- `Twitter.get_tweet_by_id` (twitter.py lines 133-144): short-circuit to
`None` when `tweet_id > 2**63`; else return the cached row if present; else
fetch from the provider (`provider tid = none` models the `TweetNotAvailable`
exception, yielding `None`) and run `_process_tweet` on the result. -/
def get_tweet_by_id (provider : Nat → Option TwiTweet) (sizeOf : String → Nat)
    (db : List Tweet) (tweet_id : Nat) : ResolveResult :=
  if tweet_id > 2 ^ 63 then
    { result := none, db := db, storageLookups := 0, providerFetched := false }
  else
    match getOrNoneByTweetId db tweet_id with
    | some t =>
      { result := some t, db := db, storageLookups := 1, providerFetched := false }
    | none =>
      match provider tweet_id with
      | none =>
        { result := none, db := db, storageLookups := 1, providerFetched := true }
      | some tw =>
        let p := processTweet sizeOf db tw
        { result := some p.1, db := p.2, storageLookups := 2, providerFetched := true }

/-- A display outcome of a pagination transition: either a tweet is shown
(`_new_timeline_tweet` with a row, identified by its primary key) or the
terminal "No more tweets found" message is displayed. -/
inductive Display where
  | shown (tweetDbId : Nat)
  | noMore
deriving DecidableEq, Repr

/-- `Tweet.get_or_none(Tweet.id == i)`: lookup by primary key. -/
def getById (db : List Tweet) (i : Nat) : Option Tweet :=
  db.find? (fun t => t.id == i)

/-- `select().where(p).order_by(Tweet.created_at.desc()).first()` restricted to
an already-filtered row list: the row with the greatest creation time. -/
def firstDescByCreated : List Tweet → Option Tweet
  | [] => none
  | t :: ts => some (ts.foldl (fun acc x => if acc.created_at < x.created_at then x else acc) t)

/-- `select().where(p).order_by(Tweet.created_at.asc()).first()` restricted to
an already-filtered row list: the row with the least creation time. -/
def firstAscByCreated : List Tweet → Option Tweet
  | [] => none
  | t :: ts => some (ts.foldl (fun acc x => if x.created_at < acc.created_at then x else acc) t)

/-- `Bot._button_next_tweet` (bot.py lines 249-257): from the current row,
show the unprocessed row with the nearest strictly earlier creation time, or
the terminal display.  The outer `none` models the Python `AttributeError`
raised when the cursor's `tweet_id` matches no row (`current_tweet` is
`None` and `.created_at` is accessed on it). -/
def button_next_tweet (db : List Tweet) (tweetId : Nat) : Option Display :=
  (getById db tweetId).map fun cur =>
    match firstDescByCreated
        (db.filter fun t => t.created_at < cur.created_at && !t.processed) with
    | some nxt => Display.shown nxt.id
    | none => Display.noMore

/-- `Bot._button_previous_tweet` (bot.py lines 259-267): the unprocessed row
with the nearest strictly later creation time. -/
def button_previous_tweet (db : List Tweet) (tweetId : Nat) : Option Display :=
  (getById db tweetId).map fun cur =>
    match firstAscByCreated
        (db.filter fun t => cur.created_at < t.created_at && !t.processed) with
    | some prev => Display.shown prev.id
    | none => Display.noMore

/-- `Bot._button_to_latest` (bot.py lines 289-294): the most recent
unprocessed row, or the terminal display. -/
def button_to_latest (db : List Tweet) : Display :=
  match firstDescByCreated (db.filter fun t => !t.processed) with
  | some t => Display.shown t.id
  | none => Display.noMore

/-- `Bot._button_reset_progress` (bot.py lines 269-277): if the cursor's row
is absent, return with no store change and no display action (`none`);
otherwise run `Tweet.update(processed=False).where(Tweet.processed == True)`
and redisplay the current row. -/
def button_reset_progress (db : List Tweet) (tweetId : Nat) :
    List Tweet × Option Display :=
  match getById db tweetId with
  | none => (db, none)
  | some t =>
    (db.map fun u => if u.processed then { u with processed := false } else u,
     some (Display.shown t.id))

/-- `Bot._button_send_to_verus` (bot.py lines 279-287): if the cursor's row is
absent, return with no store change and no display action (`none`); otherwise
set its processed flag, save, and behave as `_button_next_tweet` on the
updated store. -/
def button_send_to_verus (db : List Tweet) (tweetId : Nat) :
    List Tweet × Option Display :=
  match getById db tweetId with
  | none => (db, none)
  | some t =>
    let db2 := db.map fun u => if u.id == t.id then { u with processed := true } else u
    (db2, button_next_tweet db2 tweetId)

/-- One scan step of `re.findall(r"status/(\d+)", text)`: at each position try
to match the literal `status/` followed by a nonempty digit run; on success
capture the digits and continue past them (non-overlapping), otherwise slide
one character.  Fuel bounds the recursion (the text length suffices). -/
def findStatusIdsAux : Nat → List Char → List String
  | 0, _ => []
  | _, [] => []
  | fuel + 1, c :: rest =>
    if ("status/".toList).isPrefixOf (c :: rest) then
      let after := (c :: rest).drop 7
      let ds := after.takeWhile Char.isDigit
      if ds.isEmpty then findStatusIdsAux fuel rest
      else ds.asString :: findStatusIdsAux fuel (after.dropWhile Char.isDigit)
    else
      findStatusIdsAux fuel rest

/-- `Bot._get_tweet_id_from_text` (bot.py lines 431-437): strip the token; a
pure digit string is returned as-is, otherwise every `status/(\d+)` match in
it is returned. -/
def get_tweet_id_from_text (text : String) : List String :=
  let text := pyStrip text
  if !text.toList.isEmpty && text.toList.all Char.isDigit then [text]
  else findStatusIdsAux text.toList.length text.toList

/-- The status-link base used in the batch summary message. -/
def status_link_base : String := "https://x.com/i/web/status/"

/-- The "Some tweets were not found" summary message listing the unresolved
ids as status links. -/
def not_found_message (notFound : List Nat) : String :=
  "Some tweets were not found:\n" ++ status_link_base
    ++ String.intercalate ("\n" ++ status_link_base) (notFound.map toString)

/-- Equality of the Python `set`s underlying two id lists. -/
def setEqNat (xs ys : List Nat) : Bool :=
  xs.all (ys.contains ·) && ys.all (xs.contains ·)

/-- Observable outcome of one `/tweet` batch command: whether the
"Invalid tweet id or url" reply was sent, the tweet ids rendered (one
`send_tweet` per resolved id), and the summary replies emitted afterwards. -/
structure BatchOut where
  invalid_reply : Bool
  rendered : List Nat
  replies : List String
deriving DecidableEq, Repr

/-- `Bot.send_tweet_by_id_url` (bot.py lines 389-429) after the guard clauses:
deduplicate the whitespace-split tokens, extract ids from each, deduplicate
the id set; `if not any(ids)` (empty, or every id falsy i.e. `0`) reply
"Invalid tweet id or url"; otherwise resolve each id (`resolve` abstracts
`Twitter.get_tweet_by_id`, returning the resolved row's `tweet_id`), render
each resolved tweet and collect the returned `tweet_id`s into `found`; reply
"No tweets found" if `found` is empty, a single listing message if
`found != ids`, and nothing when all resolved.  `idsOfTokens` is the id-set
construction step (`set(map(int, chain.from_iterable(...)))` over the
deduplicated tokens). -/
def idsOfTokens (tokens : List String) : List Nat :=
  ((tokens.dedup.flatMap get_tweet_id_from_text).map (fun s => digitsToNat s.toList)).dedup

/-- The resolution-and-summary phase of `Bot.send_tweet_by_id_url`; see
`idsOfTokens` for the extraction phase. -/
def send_tweet_by_id_url (resolve : Nat → Option Nat) (tokens : List String) : BatchOut :=
  let ids := idsOfTokens tokens
  if ids.all (fun i => i == 0) then
    { invalid_reply := true, rendered := [], replies := [] }
  else
    let found := ids.filterMap resolve
    if found.isEmpty then
      { invalid_reply := false, rendered := found, replies := ["No tweets found"] }
    else if !setEqNat found ids then
      { invalid_reply := false, rendered := found,
        replies := [not_found_message (ids.filter (fun i => !found.contains i))] }
    else
      { invalid_reply := false, rendered := found, replies := [] }

/-- One scan step of `re.sub(r"@(\w+)", ..., text)`: rewrite each `@`-mention
into a profile link.  Fuel bounds the recursion (the text length suffices). -/
def replaceMentionsAux : Nat → List Char → List Char
  | 0, l => l
  | _, [] => []
  | fuel + 1, c :: rest =>
    if c = '@' then
      let w := rest.takeWhile (fun ch => ch.isAlphanum || ch = '_')
      if w.isEmpty then c :: replaceMentionsAux fuel rest
      else
        ("<a href=\"https://twitter.com/" ++ w.asString ++ "\">@" ++ w.asString
            ++ "</a>").toList
          ++ replaceMentionsAux fuel (rest.dropWhile (fun ch => ch.isAlphanum || ch = '_'))
    else
      c :: replaceMentionsAux fuel rest

/-- `Bot._replace_mentions` (bot.py line 207-208). -/
def replace_mentions (text : String) : String :=
  (replaceMentionsAux text.length text.toList).asString

/-- Modelled from the spec: `tweet.url` is read by `_get_tweet_caption` but no
`url` property is defined on the `Tweet` model in db.py; the spec says the
caption carries "footer links to the source post". -/
def tweet_url (t : Tweet) : String :=
  "https://twitter.com/" ++ t.user_screen_name ++ "/status/" ++ toString t.tweet_id

/-- Modelled from the spec: `tweet.user_url` is read by `_get_tweet_caption`
but no `user_url` property is defined on the `Tweet` model in db.py; the spec
says the caption carries a footer link to the author. -/
def tweet_user_url (t : Tweet) : String :=
  "https://twitter.com/" ++ t.user_screen_name

/-- `Bot._get_tweet_caption` (bot.py lines 184-188): text, footer links, the
processed marker, with mentions rewritten. -/
def get_tweet_caption (t : Tweet) : String :=
  let processed := if t.processed then " | Processed" else ""
  replace_mentions
    (t.text ++ "\n\n<a href=\"" ++ tweet_url t ++ "\">View on Twitter</a> | <a href=\""
      ++ tweet_user_url t ++ "\">" ++ t.user_name ++ "</a>" ++ processed)

/-- An element of a grouped-media message (`InputMediaPhoto` /
`InputMediaVideo`). -/
inductive InputMedia where
  | imPhoto (url : String)
  | imVideo (url : String)
deriving DecidableEq, Repr

/-- An outbound chat message produced by the render path. -/
inductive OutMsg where
  | text (body : String)
  | photoMsg (url : String) (caption : Option String)
  | videoMsg (url : String) (caption : Option String)
  | animationMsg (url : String) (caption : Option String)
  | sizeWarning (megabytes : Nat)
  | mediaGroup (items : List InputMedia) (caption : Option String)
deriving DecidableEq, Repr

/-- `Bot.send_single_tweet_attachment` (bot.py lines 92-148): dispatch on the
single attachment's type; photo/video/gif send the matching message kind (a
large uncached video first emits the size warning message); any other type
raises `ValueError(f"Unknown attachment type: ...")`.  The empty-list error
models Python's `IndexError` on `tweet.attachments[0]` (callers guarantee one
attachment). -/
def send_single_tweet_attachment (t : Tweet) (caption : Option String) :
    Except String (List OutMsg) :=
  match t.attachments.head? with
  | none => Except.error "IndexError: attachments is empty"
  | some att =>
    if att.type == "photo" then
      Except.ok [OutMsg.photoMsg att.url caption]
    else if att.type == "video" then
      if !att.telegram_data && 50 * 1000000 < att.size then
        Except.ok [OutMsg.sizeWarning (att.size / 1000000), OutMsg.videoMsg att.url caption]
      else
        Except.ok [OutMsg.videoMsg att.url caption]
    else if att.type == "gif" then
      Except.ok [OutMsg.animationMsg att.url caption]
    else
      Except.error ("Unknown attachment type: " ++ att.type)

/-- The per-attachment step of `Bot.send_multi_tweet_attachments` (bot.py
lines 155-172): photo → `InputMediaPhoto`, video/gif → `InputMediaVideo`, any
other type is logged and skipped (`continue`). -/
def toInputMedia (m : TwitterMedia) : Option InputMedia :=
  if m.type == "photo" then some (InputMedia.imPhoto m.url)
  else if m.type == "video" || m.type == "gif" then some (InputMedia.imVideo m.url)
  else none

/-- `Bot.send_multi_tweet_attachments` (bot.py lines 150-182): one grouped
message from the convertible attachments. -/
def send_multi_tweet_attachments (t : Tweet) (caption : Option String) : List OutMsg :=
  [OutMsg.mediaGroup (t.attachments.filterMap toInputMedia) caption]

/-- `Bot.send_tweet` (bot.py lines 190-202): build the caption unless
suppressed; raise `ValueError("No caption or attachments found")` when both
caption and attachments are absent; else dispatch to text / single-attachment
/ grouped layouts. -/
def send_tweet (t : Tweet) (no_caption : Bool) : Except String (List OutMsg) :=
  let caption := if no_caption then none else some (get_tweet_caption t)
  if caption.isNone && t.attachments.isEmpty then
    Except.error "No caption or attachments found"
  else if t.attachments.isEmpty then
    Except.ok [OutMsg.text (caption.getD "")]
  else if t.attachments.length == 1 then
    send_single_tweet_attachment t caption
  else
    Except.ok (send_multi_tweet_attachments t caption)

/-- A concrete media descriptor for concrete evaluations. -/
def sampleMedia (ty : String) : TwitterMedia :=
  { type := ty, url := "https://video.twimg.com/ext_tw_video/1/pu/vid/640x360/clip.mp4",
    width := 640, height := 360, thumbnail_url := "https://pbs.twimg.com/thumb.jpg",
    telegram_data := false, size := 1000, duration := some 10 }

/-- A concrete stored row for concrete evaluations. -/
def sampleTweet (i tid : Nat) (created : Int) (proc : Bool) (atts : List TwitterMedia) : Tweet :=
  { id := i, tweet_id := tid, text := "hello @world", created_at := created, user_id := 7,
    user_name := "Name", user_screen_name := "name", attachments := atts, processed := proc }

/-- C2: the claim says `_get_logged_in_twitter` fails with the
missing-credentials error iff the user has neither the full credential triple
nor cookies.  The code instead raises whenever EITHER is absent: a user with
cookies but no password gets the error, and so does a user with the full
triple but no cookies — in both cases `missing_credentials_spec` (the spec's
condition) is `false` yet the code errors. -/
theorem c2_login_error_code_bug :
    (get_logged_in_twitter "fresh"
        { username := "alice", telegram_id := 1, twitter_username := none,
          twitter_email := none, twitter_password := none,
          twitter_cookies := some "cookieblob" }
        { logged_in := false, cookies := none }
      = Except.error "User has no twitter credentials"
      ∧ missing_credentials_spec
          { username := "alice", telegram_id := 1, twitter_username := none,
            twitter_email := none, twitter_password := none,
            twitter_cookies := some "cookieblob" } = false)
    ∧ (get_logged_in_twitter "fresh"
        { username := "bob", telegram_id := 2, twitter_username := some "bob",
          twitter_email := some "bob@mail", twitter_password := some "pw",
          twitter_cookies := none }
        { logged_in := false, cookies := none }
      = Except.error "User has no twitter credentials"
      ∧ missing_credentials_spec
          { username := "bob", telegram_id := 2, twitter_username := some "bob",
            twitter_email := some "bob@mail", twitter_password := some "pw",
            twitter_cookies := none } = false) :=
  ⟨⟨rfl, rfl⟩, ⟨rfl, rfl⟩⟩

/-- C3: the claim says every id strictly greater than `2^63 - 1` short-circuits
to `None` with no storage lookup.  The code's guard is `tweet_id > 2**63`, so
the id `2^63` — which exceeds the signed 64-bit bound — falls through: the
call performs the storage lookup (and then the provider fetch) instead of
returning immediately. -/
theorem c3_overflow_guard_code_bug :
    ((2 : Nat) ^ 63 - 1 < 2 ^ 63)
    ∧ (get_tweet_by_id (fun _ => none) (fun _ => 0) [] (2 ^ 63)).storageLookups = 1
    ∧ (get_tweet_by_id (fun _ => none) (fun _ => 0) [] (2 ^ 63)).providerFetched = true
    ∧ (get_tweet_by_id (fun _ => none) (fun _ => 0) [] (2 ^ 63 + 1)).storageLookups = 0 := by
  refine ⟨by norm_num, ?_, ?_, ?_⟩ <;> rfl

/-- C4: the claim says photo normalization yields matching thumbnail and media
URLs AND that this URL is the provider URL rewritten to a jpg-forced path.
The thumbnail does equal the media URL, but `_custom_img_url` discards the
URLs returned by `with_query`/`with_name` (yarl URLs are immutable), so the
`.png` provider URL is returned unchanged and never jpg-forced; the intended
rewrite (`custom_img_url_intended`) gives a different URL. -/
theorem c4_photo_url_code_bug :
    ((getRelevantMediaInfo (fun _ => 1000)
        { type := "photo", media_url_https := "https://pbs.twimg.com/media/abc.png",
          sizesMediumW := 1200, sizesMediumH := 675, variantUrls := [],
          duration_millis := 0, originalW := 0, originalH := 0 }).map
        (fun m => (m.url, m.thumbnail_url)))
      = some ("https://pbs.twimg.com/media/abc.png", "https://pbs.twimg.com/media/abc.png")
    ∧ custom_img_url "https://pbs.twimg.com/media/abc.png" "medium" "jpg"
        = "https://pbs.twimg.com/media/abc.png"
    ∧ custom_img_url_intended "https://pbs.twimg.com/media/abc.png" "medium" "jpg"
        = "https://pbs.twimg.com/media/abc.jpg?name=medium&format=jpg"
    ∧ ¬ ("https://pbs.twimg.com/media/abc.png" = "https://pbs.twimg.com/media/abc.jpg?name=medium&format=jpg") := by
  refine ⟨rfl, rfl, by decide, by decide⟩

/-- C6: when the cursor's tweet is present in the cache, `_button_reset_progress`
clears the processed flag of every stored tweet (whatever the current tweet
was) and redisplays the current tweet. -/
theorem c6_reset_progress_clears_all (db : List Tweet) (tid : Nat) (t : Tweet)
    (h : getById db tid = some t) :
    ((button_reset_progress db tid).1.all fun u => !u.processed) = true
    ∧ (button_reset_progress db tid).2 = some (Display.shown t.id) := by
  have hred : button_reset_progress db tid
      = (db.map fun u => if u.processed then { u with processed := false } else u,
         some (Display.shown t.id)) := by
    unfold button_reset_progress
    rw [h]
  rw [hred]
  refine ⟨?_, rfl⟩
  simp only [List.all_eq_true, List.mem_map]
  rintro u ⟨v, hv, rfl⟩
  by_cases hp : v.processed = true <;> simp [hp]

/-- Witness for C6 at a concrete store of two processed tweets. -/
theorem c6_reset_progress_clears_all_witness :
    ((button_reset_progress
        [sampleTweet 1 101 5 true [], sampleTweet 2 102 9 true []] 1).1.all
      fun u => !u.processed) = true
    ∧ (button_reset_progress
        [sampleTweet 1 101 5 true [], sampleTweet 2 102 9 true []] 1).2
      = some (Display.shown 1) :=
  c6_reset_progress_clears_all
    [sampleTweet 1 101 5 true [], sampleTweet 2 102 9 true []] 1
    (sampleTweet 1 101 5 true []) (by decide)

/-- C10: when the cursor payload's `tweet_id` matches no cached tweet, both
`_button_reset_progress` and `_button_send_to_verus` return with the store
unchanged and no display action (no message sent, edited or deleted). -/
theorem c10_missing_cursor_noop (db : List Tweet) (tid : Nat)
    (h : getById db tid = none) :
    button_reset_progress db tid = (db, none)
    ∧ button_send_to_verus db tid = (db, none) := by
  constructor
  · unfold button_reset_progress
    rw [h]
  · unfold button_send_to_verus
    rw [h]

/-- Witness for C10: cursor id 9 matches neither stored tweet. -/
theorem c10_missing_cursor_noop_witness :
    button_reset_progress
        [sampleTweet 1 101 5 true [], sampleTweet 2 102 9 false []] 9
      = ([sampleTweet 1 101 5 true [], sampleTweet 2 102 9 false []], none)
    ∧ button_send_to_verus
        [sampleTweet 1 101 5 true [], sampleTweet 2 102 9 false []] 9
      = ([sampleTweet 1 101 5 true [], sampleTweet 2 102 9 false []], none) :=
  c10_missing_cursor_noop
    [sampleTweet 1 101 5 true [], sampleTweet 2 102 9 false []] 9 (by decide)

/-- C8: a tweet with zero attachments fails with the "No caption or
attachments found" error when the caption is suppressed, and is sent as a
single text message otherwise. -/
theorem c8_empty_render (t : Tweet) (h : t.attachments = []) :
    send_tweet t true = Except.error "No caption or attachments found"
    ∧ send_tweet t false = Except.ok [OutMsg.text (get_tweet_caption t)] := by
  unfold send_tweet
  rw [h]
  exact ⟨rfl, rfl⟩

/-- Witness for C8 at a concrete attachment-less tweet. -/
theorem c8_empty_render_witness :
    send_tweet (sampleTweet 1 101 5 false []) true
      = Except.error "No caption or attachments found"
    ∧ send_tweet (sampleTweet 1 101 5 false []) false
      = Except.ok [OutMsg.text (get_tweet_caption (sampleTweet 1 101 5 false []))] :=
  c8_empty_render (sampleTweet 1 101 5 false []) rfl

/-- C9: a single attachment whose type tag is not photo/video/gif makes
`send_tweet` raise the "Unknown attachment type" error, while on the grouped
path an unknown kind contributes nothing to the media group
(`toInputMedia` skips it) and the group is still sent successfully. -/
theorem c9_unknown_attachment (t1 t2 : Tweet) (a : TwitterMedia) (nc1 nc2 : Bool)
    (h1 : t1.attachments = [a])
    (hp : a.type ≠ "photo") (hv : a.type ≠ "video") (hg : a.type ≠ "gif")
    (h2 : 2 ≤ t2.attachments.length) (hmem : a ∈ t2.attachments) :
    send_tweet t1 nc1 = Except.error ("Unknown attachment type: " ++ a.type)
    ∧ send_tweet t2 nc2
        = Except.ok [OutMsg.mediaGroup (t2.attachments.filterMap toInputMedia)
            (if nc2 then none else some (get_tweet_caption t2))]
    ∧ toInputMedia a = none := by
  refine ⟨?_, ?_, ?_⟩
  · unfold send_tweet send_single_tweet_attachment
    rw [h1]
    simp [hp, hv, hg]
  · unfold send_tweet send_multi_tweet_attachments
    rcases hl : t2.attachments with _ | ⟨x, xs⟩
    · rw [hl] at h2; simp at h2
    · rcases hxs : xs with _ | ⟨y, ys⟩
      · rw [hl, hxs] at h2; simp at h2
      · have hlen : ((x :: y :: ys).length == 1) = false := by
          simp only [List.length_cons, beq_eq_false_iff_ne, ne_eq]
          omega
        simp [hlen]
  · unfold toInputMedia
    simp [hp, hv, hg]

/-- Witness for C9: a lone "audio" attachment errors; the same unknown kind
inside a three-element group is skipped and the group is sent. -/
theorem c9_unknown_attachment_witness :
    send_tweet (sampleTweet 1 101 5 false [sampleMedia "audio"]) false
      = Except.error ("Unknown attachment type: " ++ (sampleMedia "audio").type)
    ∧ send_tweet
        (sampleTweet 2 102 9 false
          [sampleMedia "photo", sampleMedia "audio", sampleMedia "video"]) false
      = Except.ok [OutMsg.mediaGroup
          ((sampleTweet 2 102 9 false
              [sampleMedia "photo", sampleMedia "audio", sampleMedia "video"]).attachments.filterMap
            toInputMedia)
          (if false then none
           else some (get_tweet_caption
            (sampleTweet 2 102 9 false
              [sampleMedia "photo", sampleMedia "audio", sampleMedia "video"])))]
    ∧ toInputMedia (sampleMedia "audio") = none :=
  c9_unknown_attachment
    (sampleTweet 1 101 5 false [sampleMedia "audio"])
    (sampleTweet 2 102 9 false
      [sampleMedia "photo", sampleMedia "audio", sampleMedia "video"])
    (sampleMedia "audio") false false rfl
    (by decide) (by decide) (by decide) (by decide) (by decide)

theorem foldlDesc_eq (t : Tweet) :
    ∀ (l : List Tweet) (acc : Tweet),
      (acc = t ∨ (acc.created_at < t.created_at ∧ t ∈ l)) →
      (∀ u ∈ l, u = t ∨ u.created_at < t.created_at) →
      l.foldl (fun a x => if a.created_at < x.created_at then x else a) acc = t := by
  intro l
  induction l with
  | nil =>
    intro acc hacc _
    rcases hacc with h | ⟨_, h⟩
    · exact h
    · exact absurd h (List.not_mem_nil t)
  | cons x xs ih =>
    intro acc hacc hdom
    have hx := hdom x (List.mem_cons_self x xs)
    have hdom' : ∀ u ∈ xs, u = t ∨ u.created_at < t.created_at :=
      fun u hu => hdom u (List.mem_cons_of_mem x hu)
    simp only [List.foldl_cons]
    rcases hacc with rfl | ⟨hlt, hmem⟩
    · rcases hx with rfl | hxlt
      · exact ih _ (Or.inl (ite_self _)) hdom'
      · rw [if_neg (lt_asymm hxlt)]
        exact ih _ (Or.inl rfl) hdom'
    · rcases hx with rfl | hxlt
      · rw [if_pos hlt]
        exact ih _ (Or.inl rfl) hdom'
      · have hmem' : t ∈ xs := by
          rcases List.mem_cons.mp hmem with rfl | h
          · exact absurd hxlt (lt_irrefl _)
          · exact h
        by_cases hc : acc.created_at < x.created_at
        · rw [if_pos hc]
          exact ih _ (Or.inr ⟨hxlt, hmem'⟩) hdom'
        · rw [if_neg hc]
          exact ih _ (Or.inr ⟨hlt, hmem'⟩) hdom'

theorem foldlAsc_eq (t : Tweet) :
    ∀ (l : List Tweet) (acc : Tweet),
      (acc = t ∨ (t.created_at < acc.created_at ∧ t ∈ l)) →
      (∀ u ∈ l, u = t ∨ t.created_at < u.created_at) →
      l.foldl (fun a x => if x.created_at < a.created_at then x else a) acc = t := by
  intro l
  induction l with
  | nil =>
    intro acc hacc _
    rcases hacc with h | ⟨_, h⟩
    · exact h
    · exact absurd h (List.not_mem_nil t)
  | cons x xs ih =>
    intro acc hacc hdom
    have hx := hdom x (List.mem_cons_self x xs)
    have hdom' : ∀ u ∈ xs, u = t ∨ t.created_at < u.created_at :=
      fun u hu => hdom u (List.mem_cons_of_mem x hu)
    simp only [List.foldl_cons]
    rcases hacc with rfl | ⟨hlt, hmem⟩
    · rcases hx with rfl | hxlt
      · exact ih _ (Or.inl (ite_self _)) hdom'
      · rw [if_neg (lt_asymm hxlt)]
        exact ih _ (Or.inl rfl) hdom'
    · rcases hx with rfl | hxlt
      · rw [if_pos hlt]
        exact ih _ (Or.inl rfl) hdom'
      · have hmem' : t ∈ xs := by
          rcases List.mem_cons.mp hmem with rfl | h
          · exact absurd hxlt (lt_irrefl _)
          · exact h
        by_cases hc : x.created_at < acc.created_at
        · rw [if_pos hc]
          exact ih _ (Or.inr ⟨hxlt, hmem'⟩) hdom'
        · rw [if_neg hc]
          exact ih _ (Or.inr ⟨hlt, hmem'⟩) hdom'

theorem firstDescByCreated_eq_some (l : List Tweet) (t : Tweet) (hmem : t ∈ l)
    (hdom : ∀ u ∈ l, u = t ∨ u.created_at < t.created_at) :
    firstDescByCreated l = some t := by
  cases l with
  | nil => exact absurd hmem (List.not_mem_nil t)
  | cons x xs =>
    refine congrArg some (foldlDesc_eq t xs x ?_ (fun u hu => hdom u (List.mem_cons_of_mem x hu)))
    rcases hdom x (List.mem_cons_self x xs) with rfl | hxlt
    · exact Or.inl rfl
    · refine Or.inr ⟨hxlt, ?_⟩
      rcases List.mem_cons.mp hmem with rfl | h
      · exact absurd hxlt (lt_irrefl _)
      · exact h

theorem firstAscByCreated_eq_some (l : List Tweet) (t : Tweet) (hmem : t ∈ l)
    (hdom : ∀ u ∈ l, u = t ∨ t.created_at < u.created_at) :
    firstAscByCreated l = some t := by
  cases l with
  | nil => exact absurd hmem (List.not_mem_nil t)
  | cons x xs =>
    refine congrArg some (foldlAsc_eq t xs x ?_ (fun u hu => hdom u (List.mem_cons_of_mem x hu)))
    rcases hdom x (List.mem_cons_self x xs) with rfl | hxlt
    · exact Or.inl rfl
    · refine Or.inr ⟨hxlt, ?_⟩
      rcases List.mem_cons.mp hmem with rfl | h
      · exact absurd hxlt (lt_irrefl _)
      · exact h

/-- C5: over a cache whose unprocessed tweets are exactly `a`, `b`, `c` with
strictly decreasing creation times, the transitions walk them in order:
`to_latest` shows `a`; `next` from `a` shows `b`, from `b` shows `c`, from `c`
reaches the terminal display; `previous` inverts each `next` step. -/
theorem c5_pagination_walk (db : List Tweet) (a b c : Tweet)
    (hab : b.created_at < a.created_at) (hbc : c.created_at < b.created_at)
    (ha : a ∈ db) (hb : b ∈ db) (hc : c ∈ db)
    (hpa : a.processed = false) (hpb : b.processed = false) (hpc : c.processed = false)
    (hexact : ∀ t ∈ db, t.processed = false → t = a ∨ t = b ∨ t = c)
    (hga : getById db a.id = some a)
    (hgb : getById db b.id = some b)
    (hgc : getById db c.id = some c) :
    button_to_latest db = Display.shown a.id
    ∧ button_next_tweet db a.id = some (Display.shown b.id)
    ∧ button_next_tweet db b.id = some (Display.shown c.id)
    ∧ button_next_tweet db c.id = some Display.noMore
    ∧ button_previous_tweet db c.id = some (Display.shown b.id)
    ∧ button_previous_tweet db b.id = some (Display.shown a.id) := by
  have hac : c.created_at < a.created_at := lt_trans hbc hab
  refine ⟨?_, ?_, ?_, ?_, ?_, ?_⟩
  · unfold button_to_latest
    rw [firstDescByCreated_eq_some (db.filter fun t => !t.processed) a
      (List.mem_filter.mpr ⟨ha, by simp [hpa]⟩) ?_]
    intro u hu
    obtain ⟨hudb, hup⟩ := List.mem_filter.mp hu
    simp only [Bool.not_eq_true'] at hup
    rcases hexact u hudb hup with rfl | rfl | rfl
    · exact Or.inl rfl
    · exact Or.inr hab
    · exact Or.inr hac
  · unfold button_next_tweet
    rw [hga]
    simp only [Option.map_some']
    rw [firstDescByCreated_eq_some
      (db.filter fun t => decide (t.created_at < a.created_at) && !t.processed) b
      (List.mem_filter.mpr ⟨hb, by simp [hab, hpb]⟩) ?_]
    intro u hu
    obtain ⟨hudb, hup⟩ := List.mem_filter.mp hu
    simp only [Bool.and_eq_true, decide_eq_true_eq, Bool.not_eq_true'] at hup
    rcases hexact u hudb hup.2 with rfl | rfl | rfl
    · exact absurd hup.1 (lt_irrefl _)
    · exact Or.inl rfl
    · exact Or.inr hbc
  · unfold button_next_tweet
    rw [hgb]
    simp only [Option.map_some']
    rw [firstDescByCreated_eq_some
      (db.filter fun t => decide (t.created_at < b.created_at) && !t.processed) c
      (List.mem_filter.mpr ⟨hc, by simp [hbc, hpc]⟩) ?_]
    intro u hu
    obtain ⟨hudb, hup⟩ := List.mem_filter.mp hu
    simp only [Bool.and_eq_true, decide_eq_true_eq, Bool.not_eq_true'] at hup
    rcases hexact u hudb hup.2 with rfl | rfl | rfl
    · exact absurd (lt_trans hab hup.1) (lt_irrefl _)
    · exact absurd hup.1 (lt_irrefl _)
    · exact Or.inl rfl
  · unfold button_next_tweet
    rw [hgc]
    simp only [Option.map_some']
    have hnil : (db.filter fun t => decide (t.created_at < c.created_at) && !t.processed) = [] := by
      rw [List.filter_eq_nil_iff]
      intro u hudb hup
      simp only [Bool.and_eq_true, decide_eq_true_eq, Bool.not_eq_true'] at hup
      rcases hexact u hudb hup.2 with rfl | rfl | rfl
      · exact absurd (lt_trans hac hup.1) (lt_irrefl _)
      · exact absurd (lt_trans hbc hup.1) (lt_irrefl _)
      · exact absurd hup.1 (lt_irrefl _)
    rw [hnil]
    rfl
  · unfold button_previous_tweet
    rw [hgc]
    simp only [Option.map_some']
    rw [firstAscByCreated_eq_some
      (db.filter fun t => decide (c.created_at < t.created_at) && !t.processed) b
      (List.mem_filter.mpr ⟨hb, by simp [hbc, hpb]⟩) ?_]
    intro u hu
    obtain ⟨hudb, hup⟩ := List.mem_filter.mp hu
    simp only [Bool.and_eq_true, decide_eq_true_eq, Bool.not_eq_true'] at hup
    rcases hexact u hudb hup.2 with rfl | rfl | rfl
    · exact Or.inr hab
    · exact Or.inl rfl
    · exact absurd hup.1 (lt_irrefl _)
  · unfold button_previous_tweet
    rw [hgb]
    simp only [Option.map_some']
    rw [firstAscByCreated_eq_some
      (db.filter fun t => decide (b.created_at < t.created_at) && !t.processed) a
      (List.mem_filter.mpr ⟨ha, by simp [hab, hpa]⟩) ?_]
    intro u hu
    obtain ⟨hudb, hup⟩ := List.mem_filter.mp hu
    simp only [Bool.and_eq_true, decide_eq_true_eq, Bool.not_eq_true'] at hup
    rcases hexact u hudb hup.2 with rfl | rfl | rfl
    · exact Or.inl rfl
    · exact absurd hup.1 (lt_irrefl _)
    · exact absurd (lt_trans hbc hup.1) (lt_irrefl _)

/-- Witness for C5 at a concrete three-tweet cache (stored out of order, with
a processed fourth tweet present). -/
theorem c5_pagination_walk_witness :
    button_to_latest
        [sampleTweet 2 102 20 false [], sampleTweet 4 104 40 true [],
         sampleTweet 3 103 10 false [], sampleTweet 1 101 30 false []]
      = Display.shown 1
    ∧ button_next_tweet
        [sampleTweet 2 102 20 false [], sampleTweet 4 104 40 true [],
         sampleTweet 3 103 10 false [], sampleTweet 1 101 30 false []] 1
      = some (Display.shown 2)
    ∧ button_next_tweet
        [sampleTweet 2 102 20 false [], sampleTweet 4 104 40 true [],
         sampleTweet 3 103 10 false [], sampleTweet 1 101 30 false []] 2
      = some (Display.shown 3)
    ∧ button_next_tweet
        [sampleTweet 2 102 20 false [], sampleTweet 4 104 40 true [],
         sampleTweet 3 103 10 false [], sampleTweet 1 101 30 false []] 3
      = some Display.noMore
    ∧ button_previous_tweet
        [sampleTweet 2 102 20 false [], sampleTweet 4 104 40 true [],
         sampleTweet 3 103 10 false [], sampleTweet 1 101 30 false []] 3
      = some (Display.shown 2)
    ∧ button_previous_tweet
        [sampleTweet 2 102 20 false [], sampleTweet 4 104 40 true [],
         sampleTweet 3 103 10 false [], sampleTweet 1 101 30 false []] 2
      = some (Display.shown 1) :=
  c5_pagination_walk
    [sampleTweet 2 102 20 false [], sampleTweet 4 104 40 true [],
     sampleTweet 3 103 10 false [], sampleTweet 1 101 30 false []]
    (sampleTweet 1 101 30 false []) (sampleTweet 2 102 20 false [])
    (sampleTweet 3 103 10 false [])
    (by decide) (by decide) (by decide) (by decide) (by decide)
    (by decide) (by decide) (by decide) (by decide)
    (by decide) (by decide) (by decide)

theorem find?_append_of_none {α : Type} (p : α → Bool) (xs ys : List α)
    (h : xs.find? p = none) : (xs ++ ys).find? p = ys.find? p := by
  induction xs with
  | nil => rfl
  | cons x xs ih =>
    cases hx : p x
    · simp only [List.cons_append, List.find?, hx] at h ⊢
      exact ih h
    · simp only [List.find?, hx] at h
      exact Option.noConfusion h

/-- C1: under a well-behaved provider (a fetched tweet carries the requested
id) and a requested id within the guard range, (i) an already-cached provider
id is answered from the store: the existing row is returned, the store is
unchanged, exactly one storage lookup runs and no provider fetch happens; and
(ii) whenever a call returns a row, an immediately repeated resolution of the
same id returns that identical row from the store, again without fetching or
inserting — so resolving the same id twice never creates two cached
records. -/
theorem c1_get_tweet_by_id_idempotent (provider : Nat → Option TwiTweet)
    (sizeOf : String → Nat) (db : List Tweet) (tid : Nat) (t : Tweet)
    (hprov : ∀ i tw, provider i = some tw → tw.id = i)
    (hid : tid ≤ 2 ^ 63) :
    (getOrNoneByTweetId db tid = some t →
        get_tweet_by_id provider sizeOf db tid
          = { result := some t, db := db, storageLookups := 1, providerFetched := false })
    ∧ ((get_tweet_by_id provider sizeOf db tid).result = some t →
        get_tweet_by_id provider sizeOf (get_tweet_by_id provider sizeOf db tid).db tid
          = { result := some t, db := (get_tweet_by_id provider sizeOf db tid).db,
              storageLookups := 1, providerFetched := false }) := by
  have hguard : ¬ tid > 2 ^ 63 := not_lt.mpr hid
  have hcached : ∀ (db' : List Tweet) (t' : Tweet), getOrNoneByTweetId db' tid = some t' →
      get_tweet_by_id provider sizeOf db' tid
        = { result := some t', db := db', storageLookups := 1, providerFetched := false } := by
    intro db' t' hfind
    unfold get_tweet_by_id
    rw [if_neg hguard, hfind]
  refine ⟨hcached db t, ?_⟩
  intro hres
  cases hfind : getOrNoneByTweetId db tid with
  | some t' =>
    have h1 := hcached db t' hfind
    rw [h1] at hres ⊢
    have ht : t' = t := by simpa using hres
    subst ht
    exact hcached db t' hfind
  | none =>
    cases hp : provider tid with
    | none =>
      have h1 : get_tweet_by_id provider sizeOf db tid
          = { result := none, db := db, storageLookups := 1, providerFetched := true } := by
        unfold get_tweet_by_id
        rw [if_neg hguard, hfind, hp]
      rw [h1] at hres
      exact absurd hres (by simp)
    | some tw =>
      have htwid : tw.id = tid := hprov tid tw hp
      have hfind2 : getOrNoneByTweetId db tw.id = none := by
        rw [htwid]; exact hfind
      obtain ⟨nt, hproc, htidnt⟩ : ∃ nt : Tweet,
          processTweet sizeOf db tw = (nt, db ++ [nt]) ∧ nt.tweet_id = tw.id := by
        refine ⟨{ id := nextId db, tweet_id := tw.id, text := tw.text,
                  created_at := tw.created_at, user_id := tw.userId,
                  user_name := tw.userName, user_screen_name := tw.userScreenName,
                  attachments := get_relevant_media_info sizeOf tw.media,
                  processed := false }, ?_, rfl⟩
        unfold processTweet
        rw [hfind2]
      have h1 : get_tweet_by_id provider sizeOf db tid
          = { result := some nt, db := db ++ [nt], storageLookups := 2,
              providerFetched := true } := by
        unfold get_tweet_by_id
        rw [if_neg hguard, hfind, hp]
        show (let p := processTweet sizeOf db tw;
              ({ result := some p.1, db := p.2, storageLookups := 2,
                 providerFetched := true } : ResolveResult)) = _
        rw [hproc]
      rw [h1] at hres ⊢
      have ht : nt = t := by simpa using hres
      subst ht
      apply hcached
      unfold getOrNoneByTweetId at hfind ⊢
      rw [find?_append_of_none _ _ _ hfind]
      simp [List.find?, htidnt, htwid]

/-- Witness for C1 at a concrete one-row store holding provider id 42, with a
provider that never answers. -/
theorem c1_get_tweet_by_id_idempotent_witness :
    get_tweet_by_id (fun _ => none) (fun _ => 0) [sampleTweet 1 42 5 false []] 42
      = { result := some (sampleTweet 1 42 5 false []),
          db := [sampleTweet 1 42 5 false []],
          storageLookups := 1, providerFetched := false } :=
  (c1_get_tweet_by_id_idempotent (fun _ => none) (fun _ => 0)
    [sampleTweet 1 42 5 false []] 42 (sampleTweet 1 42 5 false [])
    (fun _ _ h => nomatch h) (by norm_num)).1 (by decide)

theorem filterMap_eq_filter_isSome (resolve : Nat → Option Nat) (l : List Nat)
    (hres : ∀ i j, resolve i = some j → j = i) :
    l.filterMap resolve = l.filter (fun i => (resolve i).isSome) := by
  induction l with
  | nil => rfl
  | cons x xs ih =>
    cases hx : resolve x with
    | none => simp [List.filterMap_cons, List.filter_cons, hx, ih]
    | some j =>
      have hj : j = x := hres x j hx
      subst hj
      simp [List.filterMap_cons, List.filter_cons, hx, ih]

theorem contains_eq_decide_mem (l : List Nat) (i : Nat) :
    l.contains i = decide (i ∈ l) := by
  simp [List.contains, List.elem_eq_mem]

theorem setEqNat_filter_iff (p : Nat → Bool) (ids : List Nat) :
    setEqNat (ids.filter p) ids = true ↔ ∀ i ∈ ids, p i = true := by
  unfold setEqNat
  simp only [Bool.and_eq_true, List.all_eq_true, contains_eq_decide_mem,
    decide_eq_true_eq]
  constructor
  · rintro ⟨_, h2⟩ i hi
    exact (List.mem_filter.mp (h2 i hi)).2
  · intro h
    exact ⟨fun x hx => (List.mem_filter.mp hx).1,
           fun i hi => List.mem_filter.mpr ⟨hi, h i hi⟩⟩

/-- C7: for a valid batch of tokens (the extracted id set is not all-falsy)
and a well-behaved resolver, the deduplicated id set has no duplicates, the
rendered tweets are exactly the ids that resolve (invalid tokens contribute
no ids and unresolved ids are never rendered), at most one summary reply is
emitted — never one error per failed id — and the summary distinguishes the
three cases: all resolved (no reply), none resolved ("No tweets found"), and
some-but-not-all resolved (a single message listing the unresolved ids). -/
theorem c7_batch_summary (resolve : Nat → Option Nat) (tokens : List String)
    (hres : ∀ i j, resolve i = some j → j = i)
    (hvalid : (idsOfTokens tokens).all (fun i => i == 0) = false) :
    (idsOfTokens tokens).Nodup
    ∧ (send_tweet_by_id_url resolve tokens).invalid_reply = false
    ∧ (send_tweet_by_id_url resolve tokens).rendered
        = (idsOfTokens tokens).filter (fun i => (resolve i).isSome)
    ∧ (send_tweet_by_id_url resolve tokens).replies.length ≤ 1
    ∧ ((∀ i ∈ idsOfTokens tokens, (resolve i).isSome = true) →
        (send_tweet_by_id_url resolve tokens).replies = [])
    ∧ ((∀ i ∈ idsOfTokens tokens, resolve i = none) →
        (send_tweet_by_id_url resolve tokens).replies = ["No tweets found"])
    ∧ ((∃ i ∈ idsOfTokens tokens, (resolve i).isSome = true) →
        (∃ i ∈ idsOfTokens tokens, resolve i = none) →
        (send_tweet_by_id_url resolve tokens).replies
          = [not_found_message
              ((idsOfTokens tokens).filter (fun i => (resolve i).isNone))]) := by
  have hnodup : (idsOfTokens tokens).Nodup := List.nodup_dedup _
  have hfm := filterMap_eq_filter_isSome resolve (idsOfTokens tokens) hres
  have hout : send_tweet_by_id_url resolve tokens =
      (let found := (idsOfTokens tokens).filter (fun i => (resolve i).isSome)
       if found.isEmpty then
         { invalid_reply := false, rendered := found, replies := ["No tweets found"] }
       else if !setEqNat found (idsOfTokens tokens) then
         { invalid_reply := false, rendered := found,
           replies := [not_found_message
             ((idsOfTokens tokens).filter (fun i => !found.contains i))] }
       else
         { invalid_reply := false, rendered := found, replies := [] }) := by
    unfold send_tweet_by_id_url
    rw [if_neg (by simp [hvalid]), hfm]
  rw [hout]
  refine ⟨hnodup, ?_, ?_, ?_, ?_, ?_, ?_⟩
  · by_cases h1 : ((idsOfTokens tokens).filter (fun i => (resolve i).isSome)).isEmpty = true
    · simp [h1]
    · by_cases h2 : (!setEqNat ((idsOfTokens tokens).filter (fun i => (resolve i).isSome))
          (idsOfTokens tokens)) = true
      · simp [h1, h2]
      · simp [h1, h2]
  · by_cases h1 : ((idsOfTokens tokens).filter (fun i => (resolve i).isSome)).isEmpty = true
    · simp [h1]
    · by_cases h2 : (!setEqNat ((idsOfTokens tokens).filter (fun i => (resolve i).isSome))
          (idsOfTokens tokens)) = true
      · simp [h1, h2]
      · simp [h1, h2]
  · by_cases h1 : ((idsOfTokens tokens).filter (fun i => (resolve i).isSome)).isEmpty = true
    · simp [h1]
    · by_cases h2 : (!setEqNat ((idsOfTokens tokens).filter (fun i => (resolve i).isSome))
          (idsOfTokens tokens)) = true
      · simp [h1, h2]
      · simp [h1, h2]
  · intro hall
    have hfull : (idsOfTokens tokens).filter (fun i => (resolve i).isSome)
        = idsOfTokens tokens := List.filter_eq_self.mpr hall
    have hne : idsOfTokens tokens ≠ [] := by
      intro hnil
      rw [hnil] at hvalid
      exact Bool.true_eq_false ▸ hvalid
    have hset : setEqNat (idsOfTokens tokens) (idsOfTokens tokens) = true := by
      unfold setEqNat
      simp only [Bool.and_eq_true, List.all_eq_true, contains_eq_decide_mem,
        decide_eq_true_eq]
      exact ⟨fun x hx => hx, fun x hx => hx⟩
    simp [hfull, List.isEmpty_eq_false.mpr hne, hset]
  · intro hnone
    have hnil : (idsOfTokens tokens).filter (fun i => (resolve i).isSome) = [] := by
      rw [List.filter_eq_nil_iff]
      intro i hi
      simp [hnone i hi]
    simp [hnil]
  · rintro ⟨i0, hi0, hr0⟩ ⟨i1, hi1, hr1⟩
    have hmem0 : i0 ∈ (idsOfTokens tokens).filter (fun i => (resolve i).isSome) :=
      List.mem_filter.mpr ⟨hi0, hr0⟩
    have hne : (idsOfTokens tokens).filter (fun i => (resolve i).isSome) ≠ [] := by
      intro hnil
      rw [hnil] at hmem0
      exact absurd hmem0 (List.not_mem_nil i0)
    have hset : setEqNat ((idsOfTokens tokens).filter (fun i => (resolve i).isSome))
        (idsOfTokens tokens) = false := by
      rw [Bool.eq_false_iff]
      intro habs
      have := (setEqNat_filter_iff _ _).mp habs i1 hi1
      rw [hr1] at this
      exact Bool.false_eq_true ▸ this
    have hmsg : (idsOfTokens tokens).filter
          (fun i => !((idsOfTokens tokens).filter (fun j => (resolve j).isSome)).contains i)
        = (idsOfTokens tokens).filter (fun i => (resolve i).isNone) := by
      apply List.filter_congr
      intro i hi
      rw [contains_eq_decide_mem]
      cases hri : resolve i with
      | none =>
        have : i ∉ (idsOfTokens tokens).filter (fun j => (resolve j).isSome) := by
          intro habs
          have := (List.mem_filter.mp habs).2
          rw [hri] at this
          exact Bool.false_eq_true ▸ this
        simp [this, hri]
      | some j =>
        have : i ∈ (idsOfTokens tokens).filter (fun j => (resolve j).isSome) :=
          List.mem_filter.mpr ⟨hi, by simp [hri]⟩
        simp [this, hri]
    simp only [List.isEmpty_eq_false.mpr hne, hset, hmsg]
    simp

/-- Witness for C7: tokens mixing a bare id, an invalid token and a status
URL, with a resolver that only answers id 101. -/
theorem c7_batch_summary_witness :
    (idsOfTokens ["101", "abc", "https://x.com/u/status/202"]).Nodup
    ∧ (send_tweet_by_id_url (fun i => if i = 101 then some i else none)
        ["101", "abc", "https://x.com/u/status/202"]).invalid_reply = false
    ∧ (send_tweet_by_id_url (fun i => if i = 101 then some i else none)
        ["101", "abc", "https://x.com/u/status/202"]).rendered
        = (idsOfTokens ["101", "abc", "https://x.com/u/status/202"]).filter
            (fun i => ((fun i => if i = 101 then some i else none) i).isSome)
    ∧ (send_tweet_by_id_url (fun i => if i = 101 then some i else none)
        ["101", "abc", "https://x.com/u/status/202"]).replies.length ≤ 1
    ∧ (send_tweet_by_id_url (fun i => if i = 101 then some i else none)
        ["101", "abc", "https://x.com/u/status/202"]).replies
        = [not_found_message
            ((idsOfTokens ["101", "abc", "https://x.com/u/status/202"]).filter
              (fun i => ((fun i => if i = 101 then some i else none) i).isNone))] := by
  have h := c7_batch_summary (fun i => if i = 101 then some i else none)
    ["101", "abc", "https://x.com/u/status/202"]
    (fun i j hij => by
      by_cases hi : i = 101
      · subst hi
        simp at hij
        exact hij.symm
      · simp [hi] at hij)
    (by decide)
  exact ⟨h.1, h.2.1, h.2.2.1, h.2.2.2.1,
    h.2.2.2.2.2.2 (by decide) (by decide)⟩

end Sklad
